import Mathlib

/-!
Shallow embedding of the HaLow Wireless Link Manager of this repository
(src/main/task_halow.c and src/main/mm_app_regdb.c), with theorems checking
the natural-language specification against the code.

Modelling conventions:
* C `char` buffers (NUL-terminated strings) are modelled as `List Char`
  (`CStr`); `strlen` is `List.length`, `strncpy(dst, src, n-1); dst[n-1]=0`
  is `List.take (n-1)`.
* The module-level globals of task_halow.c are collected in `HalowState`.
* The NVS "certs" partition, namespace "halow_auto", is modelled as
  `NvsStore`: the three keys as `Option` fields, availability of the
  partition as `avail`, and a counter of `nvs_commit` calls as `commits`.
* Calls into the Morse Micro driver adapter are recorded in an event trace
  (`Ev`); synchronous driver acceptance/rejection and the asynchronous
  CONNECTED bit observed by waits are supplied as oracle parameters.
* Constants `MMWLAN_SSID_MAXLEN` and `MMWLAN_PASSPHRASE_MAXLEN` come from
  the SDK header `mmwlan.h`, which is not among the sources; they are
  modelled from the spec (32 and 64 byte limits).
-/

/-- A C string (NUL-terminated char buffer), modelled as a list of chars. -/
abbrev CStr := List Char

/-- MAX_SSID_LEN from task_halow.c (line 53). -/
def MAX_SSID_LEN : Nat := 32

/-- MAX_PASSWORD_LEN from task_halow.c (line 54). -/
def MAX_PASSWORD_LEN : Nat := 64

/-- AUTO_CONNECT_MAX_ATTEMPTS from task_halow.c (line 64). -/
def AUTO_CONNECT_MAX_ATTEMPTS : Nat := 3

/-- AUTO_CONNECT_RETRY_DELAY_MS from task_halow.c (line 65). -/
def AUTO_CONNECT_RETRY_DELAY_MS : Nat := 2000

/-- Modelled from the spec: `MMWLAN_SSID_MAXLEN` is declared in the driver
SDK header `mmwlan.h`, which is absent from the sources. The spec gives the
SSID limit as 32 bytes (`1 ≤ len(ssid) ≤ 32`), matching the code's own
`MAX_SSID_LEN` and the `MMWLAN_SSID_MAXLEN + 1`-byte buffers. -/
def MMWLAN_SSID_MAXLEN : Nat := 32

/-- Modelled from the spec: `MMWLAN_PASSPHRASE_MAXLEN` is declared in the
driver SDK header `mmwlan.h`, which is absent from the sources. The spec
gives the password limit as 64 bytes (`1 ≤ len(password) ≤ 64`). -/
def MMWLAN_PASSPHRASE_MAXLEN : Nat := 64

/-- HALOW_COUNTRY_CODE default from task_halow.c (line 47). -/
def HALOW_COUNTRY_CODE : CStr := "US".data

/-- ESP_OK result code. -/
def ESP_OK : Int := 0

/-- ESP_ERR_INVALID_ARG result code. -/
def ESP_ERR_INVALID_ARG : Int := 0x102

/-- ESP_ERR_NVS_NOT_FOUND result code (propagated when the partition cannot
be opened). -/
def ESP_ERR_NVS_NOT_FOUND : Int := 0x1102

/-- Events recording the calls task_halow.c makes into the driver adapter /
RTOS, in program order. -/
inductive Ev
  | setChannelList
  | regLinkStateCb
  | regRxCb
  | boot
  | ipalInit
  | staEnable
  | scanRequest
  | connectCall (ssid : CStr) (password : Option CStr)
  | waitConnected (timeoutMs : Nat)
  | delay (ms : Nat)
deriving DecidableEq

/-- The NVS partition "certs", namespace "halow_auto", as seen by
task_halow.c: the "ssid", "password" and "valid" keys, whether the
partition can be opened at all, and a count of `nvs_commit` calls. -/
structure NvsStore where
  avail : Bool
  ssid : Option CStr
  password : Option CStr
  valid : Option Nat
  commits : Nat
deriving DecidableEq

/-- The module-level state of task_halow.c (lines 67-78): the `halow_*`
flags, the CONNECTED/SCAN_DONE bits of the event group, the string buffers
and the scan counter. -/
structure HalowState where
  halow_init_done : Bool
  halow_started : Bool
  halow_booted : Bool
  connectedBit : Bool
  scanDoneBit : Bool
  halow_last_password : CStr
  halow_connected_ssid : CStr
  halow_save_pending_ssid : CStr
  halow_save_pending_password : CStr
  scan_count : Nat
deriving DecidableEq

/-- Truncating copy into a buffer holding `cap` characters plus NUL:
`strncpy(dst, src, cap); dst[cap] = 0`. -/
def strncpy_trunc (src : CStr) (cap : Nat) : CStr := src.take cap

/-- halow_save_network_config (task_halow.c lines 490-544): rejects a NULL
or empty SSID, opens the partition read-write, stores ssid, password
(empty string for NULL password) and the valid marker, and commits. -/
def halow_save_network_config (store : NvsStore) (ssid : Option CStr)
    (password : Option CStr) : NvsStore × Int :=
  match ssid with
  | none => (store, ESP_ERR_INVALID_ARG)
  | some sd =>
    if sd.length = 0 then (store, ESP_ERR_INVALID_ARG)
    else if store.avail = false then (store, ESP_ERR_NVS_NOT_FOUND)
    else
      let password_to_save := match password with
        | some p => p
        | none => []
      ({ store with
          ssid := some sd,
          password := some password_to_save,
          valid := some 1,
          commits := store.commits + 1 }, ESP_OK)

/-- halow_load_network_config (task_halow.c lines 552-600): opens the
partition read-only, requires the valid marker to equal 1, then reads the
ssid into a MAX_SSID_LEN-byte buffer and the password into a
MAX_PASSWORD_LEN-byte buffer; `nvs_get_str` fails when the stored string
(with its NUL terminator) does not fit the buffer. -/
def halow_load_network_config (store : NvsStore) : Option (CStr × CStr) :=
  if store.avail = false then none
  else match store.valid with
    | some 1 =>
      match store.ssid with
      | none => none
      | some sd =>
        if MAX_SSID_LEN < sd.length + 1 then none
        else match store.password with
          | none => none
          | some pw =>
            if MAX_PASSWORD_LEN < pw.length + 1 then none
            else some (sd, pw)
    | _ => none

/-- halow_should_save_network_config (task_halow.c lines 608-634): load the
existing config; save when there is none, or when the ssid or the password
(NULL treated as empty) differs. -/
def halow_should_save_network_config (store : NvsStore) (ssid : CStr)
    (password : Option CStr) : Bool :=
  match halow_load_network_config store with
  | none => true
  | some (saved_ssid, saved_password) =>
    if saved_ssid ≠ ssid then true
    else if saved_password ≠ (match password with | some p => p | none => []) then true
    else false

/-- The guarded save sequence of the STA status handler (task_halow.c lines
146-159): call halow_should_save_network_config and, only when it returns
true, halow_save_network_config; a detected-identical config is skipped and
treated as success. -/
def halow_save_if_different (store : NvsStore) (ssid : CStr)
    (password : Option CStr) : NvsStore × Int :=
  if halow_should_save_network_config store ssid password then
    halow_save_network_config store (some ssid) password
  else (store, ESP_OK)

/-- The description table of halow_sta_status_handler (task_halow.c lines
125-129): a fixed three-entry array of state names. -/
def sta_state_desc : List String := ["DISABLED", "CONNECTING", "CONNECTED"]

/-- The array access `sta_state_desc[sta_state]` of task_halow.c line 130.
The index is the raw integer value carried by the `enum mmwlan_sta_state`
parameter; the C code performs no bounds check, so an index outside the
table is an out-of-bounds read, modelled here as `none`. -/
def sta_state_desc_lookup (sta_state : Nat) : Option String :=
  sta_state_desc.get? sta_state

/-- halow_sta_status_handler (task_halow.c lines 123-187), acting on the
module state and the NVS store. The status parameter is the integer value
of `enum mmwlan_sta_state` (0 = DISABLED, 1 = CONNECTING, 2 = CONNECTED).
On CONNECTED: set the CONNECTED bit; when a pending-save ssid exists,
run the guarded save, copy the pending ssid into halow_connected_ssid
(strncpy into its 33-byte buffer) and clear both pending buffers.
On DISABLED or CONNECTING: clear the CONNECTED bit, clear
halow_connected_ssid and halow_last_password; any other value only prints. -/
def halow_sta_status_handler (s : HalowState) (store : NvsStore)
    (sta_state : Nat) : HalowState × NvsStore :=
  if sta_state = 2 then
    let s1 := { s with connectedBit := true }
    if s1.halow_save_pending_ssid ≠ [] then
      let store1 :=
        if halow_should_save_network_config store s1.halow_save_pending_ssid
            (some s1.halow_save_pending_password) then
          (halow_save_network_config store (some s1.halow_save_pending_ssid)
            (some s1.halow_save_pending_password)).1
        else store
      ({ s1 with
          halow_connected_ssid := strncpy_trunc s1.halow_save_pending_ssid 32,
          halow_save_pending_ssid := [],
          halow_save_pending_password := [] }, store1)
    else (s1, store)
  else if sta_state = 0 ∨ sta_state = 1 then
    ({ s with
        connectedBit := false,
        halow_connected_ssid := [],
        halow_last_password := [] }, store)
  else (s, store)

/-- halow_link_state_handler (task_halow.c lines 87-107): LINK_UP sets the
CONNECTED bit (and gives the link semaphore), LINK_DOWN clears it. -/
def halow_link_state_handler (s : HalowState) (link_up : Bool) : HalowState :=
  if link_up then { s with connectedBit := true }
  else { s with connectedBit := false }

/-- halow_scan_rx_callback (task_halow.c lines 192-208): increments
scan_count once per delivered result. -/
def halow_scan_rx_callback (s : HalowState) : HalowState :=
  { s with scan_count := s.scan_count + 1 }

/-- halow_scan_complete_callback (task_halow.c lines 213-224): sets the
SCAN_DONE bit (and gives the scan semaphore). -/
def halow_scan_complete_callback (s : HalowState) : HalowState :=
  { s with scanDoneBit := true }

/-- The C condition `password && strlen(password) > 0 &&
passphrase_len > MMWLAN_PASSPHRASE_MAXLEN` of task_halow.c lines 764-766. -/
def passphrase_too_long (password : Option CStr) : Bool :=
  match password with
  | some p => decide (0 < p.length) && decide (MMWLAN_PASSPHRASE_MAXLEN < p.length)
  | none => false

/-- halow_connect (task_halow.c lines 733-811). Checks started and a
non-NULL, non-empty ssid; copies the password into halow_last_password
(strncpy into its 64-byte buffer); rejects an ssid longer than
MMWLAN_SSID_MAXLEN and a password longer than MMWLAN_PASSPHRASE_MAXLEN;
then records the ssid in halow_connected_ssid and the pending-save
buffers and calls mmwlan_sta_enable (`staEnableOk` models its synchronous
status). On synchronous rejection the displayed ssid and the pending
buffers are cleared again. The event list records driver calls. -/
def halow_connect (s : HalowState) (ssid : Option CStr)
    (password : Option CStr) (staEnableOk : Bool) :
    HalowState × Int × List Ev :=
  if s.halow_started = false then (s, -1, [])
  else match ssid with
  | none => (s, -1, [])
  | some sd =>
    if sd.length = 0 then (s, -1, [])
    else
      let s1 := { s with halow_last_password :=
        match password with
        | some p => if 0 < p.length then strncpy_trunc p (MAX_PASSWORD_LEN - 1) else []
        | none => [] }
      if MMWLAN_SSID_MAXLEN < sd.length then (s1, -1, [])
      else if passphrase_too_long password then (s1, -1, [])
      else
        let s2 := { s1 with
          halow_connected_ssid := strncpy_trunc sd MMWLAN_SSID_MAXLEN,
          halow_save_pending_ssid := strncpy_trunc sd MMWLAN_SSID_MAXLEN,
          halow_save_pending_password :=
            match password with
            | some p => if 0 < p.length then strncpy_trunc p (MAX_PASSWORD_LEN - 1) else []
            | none => [] }
        if staEnableOk then (s2, 0, [Ev.staEnable])
        else ({ s2 with
                halow_connected_ssid := [],
                halow_save_pending_ssid := [],
                halow_save_pending_password := [] }, -1, [Ev.staEnable])

/-- halow_scan (task_halow.c lines 817-845): requires started, resets
scan_count to 0 and issues mmwlan_scan_request with the two callbacks;
there is no guard against a scan already in progress. -/
def halow_scan (s : HalowState) (scanRequestOk : Bool) :
    HalowState × Int × List Ev :=
  if s.halow_started = false then (s, -1, [])
  else
    let s1 := { s with scan_count := 0 }
    if scanRequestOk then (s1, 0, [Ev.scanRequest])
    else (s1, -1, [Ev.scanRequest])

/-- The `for (attempt = 1; attempt <= AUTO_CONNECT_MAX_ATTEMPTS; attempt++)`
loop of halow_auto_connect (task_halow.c lines 691-721), with explicit fuel
(the loop runs at most 3 iterations). `acc i` is the synchronous driver
status of the i-th mmwlan_sta_enable call; `bits i` is the value of the
CONNECTED bit when the i-th `xEventGroupWaitBits(..., 5000ms)` returns. -/
def halow_auto_connect_loop (acc bits : Nat → Bool) (ssid : CStr)
    (pw : Option CStr) :
    HalowState → Nat → Nat → HalowState × Int × List Ev
  | s, _, 0 => (s, -1, [])
  | s, attempt, fuel + 1 =>
    let c := halow_connect s (some ssid) pw (acc attempt)
    let ev0 := Ev.connectCall ssid pw :: c.2.2
    if c.2.1 = 0 then
      if bits attempt then (c.1, 0, ev0 ++ [Ev.waitConnected 5000])
      else if attempt < AUTO_CONNECT_MAX_ATTEMPTS then
        let rest := halow_auto_connect_loop acc bits ssid pw c.1 (attempt + 1) fuel
        (rest.1, rest.2.1,
          ev0 ++ [Ev.waitConnected 5000, Ev.delay AUTO_CONNECT_RETRY_DELAY_MS]
              ++ rest.2.2)
      else (c.1, -1, ev0 ++ [Ev.waitConnected 5000])
    else if attempt < AUTO_CONNECT_MAX_ATTEMPTS then
      let rest := halow_auto_connect_loop acc bits ssid pw c.1 (attempt + 1) fuel
      (rest.1, rest.2.1, ev0 ++ [Ev.delay AUTO_CONNECT_RETRY_DELAY_MS] ++ rest.2.2)
    else (c.1, -1, ev0)

/-- halow_auto_connect (task_halow.c lines 677-725): load the saved network
config; if none, return -1 immediately; otherwise run up to 3 connect
attempts, passing NULL for an empty stored password. -/
def halow_auto_connect (s : HalowState) (store : NvsStore)
    (acc bits : Nat → Bool) : HalowState × Int × List Ev :=
  match halow_load_network_config store with
  | none => (s, -1, [])
  | some (ssid, password) =>
    let connect_password : Option CStr :=
      if 0 < password.length then some password else none
    halow_auto_connect_loop acc bits ssid connect_password s 1
      AUTO_CONNECT_MAX_ATTEMPTS

/-- One S1G channel record of mm_app_regdb.c. Fields in the order of the
row comments: centre frequency (Hz), duty cycle (%/100), omit control
resp, global operating class, S1G operating class, S1G channel number,
operating bandwidth (MHz), max tx EIRP (dBm), min packet spacing window
(us), airtime min (us), airtime max (us). -/
structure mmwlan_s1g_channel where
  centre_freq_hz : Nat
  duty_cycle : Nat
  omit_control_resp : Bool
  global_op_class : Nat
  s1g_op_class : Nat
  s1g_chan_num : Nat
  op_bw_mhz : Nat
  max_tx_eirp_dbm : Nat
  pkt_spacing_us : Nat
  airtime_min_us : Nat
  airtime_max_us : Nat
deriving DecidableEq

/-- A per-country channel-list record of mm_app_regdb.c. -/
structure mmwlan_s1g_channel_list where
  country_code : CStr
  num_channels : Nat
  channels : List mmwlan_s1g_channel
deriving DecidableEq

/-- The regulatory database structure of mm_app_regdb.c. -/
structure mmwlan_regulatory_db where
  num_domains : Nat
  domains : List mmwlan_s1g_channel_list
deriving DecidableEq

/-- s1g_channels_AU (mm_app_regdb.c lines 38-63). -/
def s1g_channels_AU : List mmwlan_s1g_channel := [
  ⟨915500000, 10000, false, 68, 22, 27, 1, 30, 0, 0, 0⟩,
  ⟨916500000, 10000, false, 68, 22, 29, 1, 30, 0, 0, 0⟩,
  ⟨917500000, 10000, false, 68, 22, 31, 1, 30, 0, 0, 0⟩,
  ⟨918500000, 10000, false, 68, 22, 33, 1, 30, 0, 0, 0⟩,
  ⟨919500000, 10000, false, 68, 22, 35, 1, 30, 0, 0, 0⟩,
  ⟨920500000, 10000, false, 68, 22, 37, 1, 30, 0, 0, 0⟩,
  ⟨921500000, 10000, false, 68, 22, 39, 1, 30, 0, 0, 0⟩,
  ⟨922500000, 10000, false, 68, 22, 41, 1, 30, 0, 0, 0⟩,
  ⟨923500000, 10000, false, 68, 22, 43, 1, 30, 0, 0, 0⟩,
  ⟨924500000, 10000, false, 68, 22, 45, 1, 30, 0, 0, 0⟩,
  ⟨925500000, 10000, false, 68, 22, 47, 1, 30, 0, 0, 0⟩,
  ⟨926500000, 10000, false, 68, 22, 49, 1, 30, 0, 0, 0⟩,
  ⟨927500000, 10000, false, 68, 22, 51, 1, 30, 0, 0, 0⟩,
  ⟨917000000, 10000, false, 69, 23, 30, 2, 30, 0, 0, 0⟩,
  ⟨919000000, 10000, false, 69, 23, 34, 2, 30, 0, 0, 0⟩,
  ⟨921000000, 10000, false, 69, 23, 38, 2, 30, 0, 0, 0⟩,
  ⟨923000000, 10000, false, 69, 23, 42, 2, 30, 0, 0, 0⟩,
  ⟨925000000, 10000, false, 69, 23, 46, 2, 30, 0, 0, 0⟩,
  ⟨927000000, 10000, false, 69, 23, 50, 2, 30, 0, 0, 0⟩,
  ⟨918000000, 10000, false, 70, 24, 32, 4, 30, 0, 0, 0⟩,
  ⟨922000000, 10000, false, 70, 24, 40, 4, 30, 0, 0, 0⟩,
  ⟨926000000, 10000, false, 70, 24, 48, 4, 30, 0, 0, 0⟩,
  ⟨924000000, 10000, false, 71, 25, 44, 8, 30, 0, 0, 0⟩]

/-- s1g_channel_list_AU (mm_app_regdb.c lines 66-70). -/
def s1g_channel_list_AU : mmwlan_s1g_channel_list :=
  ⟨"AU".data, s1g_channels_AU.length, s1g_channels_AU⟩

/-- s1g_channels_CA (mm_app_regdb.c lines 73-123). -/
def s1g_channels_CA : List mmwlan_s1g_channel := [
  ⟨902500000, 10000, false, 68, 1, 1, 1, 36, 0, 0, 0⟩,
  ⟨903500000, 10000, false, 68, 1, 3, 1, 36, 0, 0, 0⟩,
  ⟨904500000, 10000, false, 68, 1, 5, 1, 36, 0, 0, 0⟩,
  ⟨905500000, 10000, false, 68, 1, 7, 1, 36, 0, 0, 0⟩,
  ⟨906500000, 10000, false, 68, 1, 9, 1, 36, 0, 0, 0⟩,
  ⟨907500000, 10000, false, 68, 1, 11, 1, 36, 0, 0, 0⟩,
  ⟨908500000, 10000, false, 68, 1, 13, 1, 36, 0, 0, 0⟩,
  ⟨909500000, 10000, false, 68, 1, 15, 1, 36, 0, 0, 0⟩,
  ⟨910500000, 10000, false, 68, 1, 17, 1, 36, 0, 0, 0⟩,
  ⟨911500000, 10000, false, 68, 1, 19, 1, 36, 0, 0, 0⟩,
  ⟨912500000, 10000, false, 68, 1, 21, 1, 36, 0, 0, 0⟩,
  ⟨913500000, 10000, false, 68, 1, 23, 1, 36, 0, 0, 0⟩,
  ⟨914500000, 10000, false, 68, 1, 25, 1, 36, 0, 0, 0⟩,
  ⟨915500000, 10000, false, 68, 1, 27, 1, 36, 0, 0, 0⟩,
  ⟨916500000, 10000, false, 68, 1, 29, 1, 36, 0, 0, 0⟩,
  ⟨917500000, 10000, false, 68, 1, 31, 1, 36, 0, 0, 0⟩,
  ⟨918500000, 10000, false, 68, 1, 33, 1, 36, 0, 0, 0⟩,
  ⟨919500000, 10000, false, 68, 1, 35, 1, 36, 0, 0, 0⟩,
  ⟨920500000, 10000, false, 68, 1, 37, 1, 36, 0, 0, 0⟩,
  ⟨921500000, 10000, false, 68, 1, 39, 1, 36, 0, 0, 0⟩,
  ⟨922500000, 10000, false, 68, 1, 41, 1, 36, 0, 0, 0⟩,
  ⟨923500000, 10000, false, 68, 1, 43, 1, 36, 0, 0, 0⟩,
  ⟨924500000, 10000, false, 68, 1, 45, 1, 36, 0, 0, 0⟩,
  ⟨925500000, 10000, false, 68, 1, 47, 1, 36, 0, 0, 0⟩,
  ⟨926500000, 10000, false, 68, 1, 49, 1, 36, 0, 0, 0⟩,
  ⟨927500000, 10000, false, 68, 1, 51, 1, 36, 0, 0, 0⟩,
  ⟨903000000, 10000, false, 69, 2, 2, 2, 36, 0, 0, 0⟩,
  ⟨905000000, 10000, false, 69, 2, 6, 2, 36, 0, 0, 0⟩,
  ⟨907000000, 10000, false, 69, 2, 10, 2, 36, 0, 0, 0⟩,
  ⟨909000000, 10000, false, 69, 2, 14, 2, 36, 0, 0, 0⟩,
  ⟨911000000, 10000, false, 69, 2, 18, 2, 36, 0, 0, 0⟩,
  ⟨913000000, 10000, false, 69, 2, 22, 2, 36, 0, 0, 0⟩,
  ⟨915000000, 10000, false, 69, 2, 26, 2, 36, 0, 0, 0⟩,
  ⟨917000000, 10000, false, 69, 2, 30, 2, 36, 0, 0, 0⟩,
  ⟨919000000, 10000, false, 69, 2, 34, 2, 36, 0, 0, 0⟩,
  ⟨921000000, 10000, false, 69, 2, 38, 2, 36, 0, 0, 0⟩,
  ⟨923000000, 10000, false, 69, 2, 42, 2, 36, 0, 0, 0⟩,
  ⟨925000000, 10000, false, 69, 2, 46, 2, 36, 0, 0, 0⟩,
  ⟨927000000, 10000, false, 69, 2, 50, 2, 36, 0, 0, 0⟩,
  ⟨906000000, 10000, false, 70, 3, 8, 4, 36, 0, 0, 0⟩,
  ⟨910000000, 10000, false, 70, 3, 16, 4, 36, 0, 0, 0⟩,
  ⟨914000000, 10000, false, 70, 3, 24, 4, 36, 0, 0, 0⟩,
  ⟨918000000, 10000, false, 70, 3, 32, 4, 36, 0, 0, 0⟩,
  ⟨922000000, 10000, false, 70, 3, 40, 4, 36, 0, 0, 0⟩,
  ⟨926000000, 10000, false, 70, 3, 48, 4, 36, 0, 0, 0⟩,
  ⟨908000000, 10000, false, 71, 4, 12, 8, 36, 0, 0, 0⟩,
  ⟨916000000, 10000, false, 71, 4, 28, 8, 36, 0, 0, 0⟩,
  ⟨924000000, 10000, false, 71, 4, 44, 8, 36, 0, 0, 0⟩]

/-- s1g_channel_list_CA (mm_app_regdb.c lines 126-130). -/
def s1g_channel_list_CA : mmwlan_s1g_channel_list :=
  ⟨"CA".data, s1g_channels_CA.length, s1g_channels_CA⟩

/-- s1g_channels_EU (mm_app_regdb.c lines 133-142). -/
def s1g_channels_EU : List mmwlan_s1g_channel := [
  ⟨863500000, 10000, false, 66, 6, 1, 1, 16, 0, 0, 0⟩,
  ⟨864500000, 10000, false, 66, 6, 3, 1, 16, 0, 0, 0⟩,
  ⟨865500000, 10000, false, 66, 6, 5, 1, 16, 0, 0, 0⟩,
  ⟨866500000, 10000, false, 66, 6, 7, 1, 16, 0, 0, 0⟩,
  ⟨867500000, 10000, false, 66, 6, 9, 1, 16, 0, 0, 0⟩,
  ⟨864000000, 10000, false, 67, 7, 2, 2, 16, 0, 0, 0⟩,
  ⟨866000000, 10000, false, 67, 7, 6, 2, 16, 0, 0, 0⟩]

/-- s1g_channel_list_EU (mm_app_regdb.c lines 145-149). -/
def s1g_channel_list_EU : mmwlan_s1g_channel_list :=
  ⟨"EU".data, s1g_channels_EU.length, s1g_channels_EU⟩

/-- s1g_channels_GB (mm_app_regdb.c lines 152-163). -/
def s1g_channels_GB : List mmwlan_s1g_channel := [
  ⟨863500000, 10000, false, 66, 6, 1, 1, 16, 0, 0, 0⟩,
  ⟨864500000, 10000, false, 66, 6, 3, 1, 16, 0, 0, 0⟩,
  ⟨865500000, 10000, false, 66, 6, 5, 1, 16, 0, 0, 0⟩,
  ⟨866500000, 10000, false, 66, 6, 7, 1, 16, 0, 0, 0⟩,
  ⟨867500000, 10000, false, 66, 6, 9, 1, 16, 0, 0, 0⟩,
  ⟨864000000, 10000, false, 67, 7, 2, 2, 16, 0, 0, 0⟩,
  ⟨866000000, 10000, false, 67, 7, 6, 2, 16, 0, 0, 0⟩,
  ⟨917900000, 280, false, 77, 30, 33, 1, 16, 0, 0, 0⟩,
  ⟨918900000, 280, false, 77, 30, 35, 1, 16, 0, 0, 0⟩]

/-- s1g_channel_list_GB (mm_app_regdb.c lines 166-170). -/
def s1g_channel_list_GB : mmwlan_s1g_channel_list :=
  ⟨"GB".data, s1g_channels_GB.length, s1g_channels_GB⟩

/-- s1g_channels_IN (mm_app_regdb.c lines 173-178). -/
def s1g_channels_IN : List mmwlan_s1g_channel := [
  ⟨865500000, 280, false, 66, 6, 5, 1, 16, 0, 0, 0⟩,
  ⟨866500000, 280, false, 66, 6, 7, 1, 16, 0, 0, 0⟩,
  ⟨867500000, 280, false, 66, 6, 9, 1, 16, 0, 0, 0⟩]

/-- s1g_channel_list_IN (mm_app_regdb.c lines 181-185). -/
def s1g_channel_list_IN : mmwlan_s1g_channel_list :=
  ⟨"IN".data, s1g_channels_IN.length, s1g_channels_IN⟩

/-- s1g_channels_JP (mm_app_regdb.c lines 188-202). -/
def s1g_channels_JP : List mmwlan_s1g_channel := [
  ⟨921000000, 1000, true, 73, 8, 9, 1, 16, 2000, 2000, 100000⟩,
  ⟨923000000, 1000, true, 73, 8, 13, 1, 16, 2000, 2000, 100000⟩,
  ⟨924000000, 1000, true, 73, 8, 15, 1, 16, 2000, 2000, 100000⟩,
  ⟨925000000, 1000, true, 73, 8, 17, 1, 16, 2000, 2000, 100000⟩,
  ⟨926000000, 1000, true, 73, 8, 19, 1, 16, 2000, 2000, 100000⟩,
  ⟨927000000, 1000, true, 73, 8, 21, 1, 16, 2000, 2000, 100000⟩,
  ⟨923500000, 1000, true, 64, 9, 2, 2, 16, 2000, 2000, 100000⟩,
  ⟨924500000, 1000, true, 64, 10, 4, 2, 16, 2000, 2000, 100000⟩,
  ⟨925500000, 1000, true, 64, 9, 6, 2, 16, 2000, 2000, 100000⟩,
  ⟨926500000, 1000, true, 64, 10, 8, 2, 16, 2000, 2000, 100000⟩,
  ⟨924500000, 1000, true, 65, 11, 36, 4, 16, 2000, 2000, 100000⟩,
  ⟨925500000, 1000, true, 65, 12, 38, 4, 16, 2000, 2000, 100000⟩]

/-- s1g_channel_list_JP (mm_app_regdb.c lines 205-209). -/
def s1g_channel_list_JP : mmwlan_s1g_channel_list :=
  ⟨"JP".data, s1g_channels_JP.length, s1g_channels_JP⟩

/-- s1g_channels_KR (mm_app_regdb.c lines 212-230). -/
def s1g_channels_KR : List mmwlan_s1g_channel := [
  ⟨918000000, 10000, false, 74, 14, 1, 1, 4, 50000, 0, 4000000⟩,
  ⟨919000000, 10000, false, 74, 14, 3, 1, 4, 50000, 0, 4000000⟩,
  ⟨920000000, 10000, false, 74, 14, 5, 1, 4, 50000, 0, 4000000⟩,
  ⟨921000000, 10000, false, 74, 14, 7, 1, 4, 50000, 0, 4000000⟩,
  ⟨922000000, 10000, false, 74, 14, 9, 1, 10, 50000, 0, 4000000⟩,
  ⟨923000000, 10000, false, 74, 14, 11, 1, 10, 50000, 0, 4000000⟩,
  ⟨918500000, 10000, false, 75, 15, 2, 2, 4, 50000, 0, 4000000⟩,
  ⟨920500000, 10000, false, 75, 15, 6, 2, 4, 50000, 0, 4000000⟩,
  ⟨922500000, 10000, false, 75, 15, 10, 2, 10, 50000, 0, 4000000⟩,
  ⟨921500000, 10000, false, 76, 16, 8, 4, 4, 50000, 0, 4000000⟩,
  ⟨926500000, 10000, false, 74, 14, 18, 1, 17, 264, 0, 220000⟩,
  ⟨927500000, 10000, false, 74, 14, 20, 1, 17, 264, 0, 220000⟩,
  ⟨928500000, 10000, false, 74, 14, 22, 1, 17, 264, 0, 220000⟩,
  ⟨929500000, 10000, false, 74, 14, 24, 1, 17, 264, 0, 220000⟩,
  ⟨927000000, 10000, false, 75, 15, 19, 2, 20, 264, 0, 220000⟩,
  ⟨929000000, 10000, false, 75, 15, 23, 2, 20, 264, 0, 220000⟩]

/-- s1g_channel_list_KR (mm_app_regdb.c lines 233-237). -/
def s1g_channel_list_KR : mmwlan_s1g_channel_list :=
  ⟨"KR".data, s1g_channels_KR.length, s1g_channels_KR⟩

/-- s1g_channels_NZ (mm_app_regdb.c lines 240-265). -/
def s1g_channels_NZ : List mmwlan_s1g_channel := [
  ⟨915500000, 10000, false, 68, 26, 27, 1, 30, 0, 0, 0⟩,
  ⟨916500000, 10000, false, 68, 26, 29, 1, 30, 0, 0, 0⟩,
  ⟨917500000, 10000, false, 68, 26, 31, 1, 30, 0, 0, 0⟩,
  ⟨918500000, 10000, false, 68, 26, 33, 1, 30, 0, 0, 0⟩,
  ⟨919500000, 10000, false, 68, 26, 35, 1, 30, 0, 0, 0⟩,
  ⟨920500000, 10000, false, 68, 26, 37, 1, 36, 0, 0, 0⟩,
  ⟨921500000, 10000, false, 68, 26, 39, 1, 36, 0, 0, 0⟩,
  ⟨922500000, 10000, false, 68, 26, 41, 1, 36, 0, 0, 0⟩,
  ⟨923500000, 10000, false, 68, 26, 43, 1, 36, 0, 0, 0⟩,
  ⟨924500000, 10000, false, 68, 26, 45, 1, 36, 0, 0, 0⟩,
  ⟨925500000, 10000, false, 68, 26, 47, 1, 36, 0, 0, 0⟩,
  ⟨926500000, 10000, false, 68, 26, 49, 1, 36, 0, 0, 0⟩,
  ⟨927500000, 10000, false, 68, 26, 51, 1, 36, 0, 0, 0⟩,
  ⟨917000000, 10000, false, 69, 27, 30, 2, 30, 0, 0, 0⟩,
  ⟨919000000, 10000, false, 69, 27, 34, 2, 30, 0, 0, 0⟩,
  ⟨921000000, 10000, false, 69, 27, 38, 2, 36, 0, 0, 0⟩,
  ⟨923000000, 10000, false, 69, 27, 42, 2, 36, 0, 0, 0⟩,
  ⟨925000000, 10000, false, 69, 27, 46, 2, 36, 0, 0, 0⟩,
  ⟨927000000, 10000, false, 69, 27, 50, 2, 36, 0, 0, 0⟩,
  ⟨918000000, 10000, false, 70, 28, 32, 4, 30, 0, 0, 0⟩,
  ⟨922000000, 10000, false, 70, 28, 40, 4, 36, 0, 0, 0⟩,
  ⟨926000000, 10000, false, 70, 28, 48, 4, 36, 0, 0, 0⟩,
  ⟨924000000, 10000, false, 71, 29, 44, 8, 36, 0, 0, 0⟩]

/-- s1g_channel_list_NZ (mm_app_regdb.c lines 268-272). -/
def s1g_channel_list_NZ : mmwlan_s1g_channel_list :=
  ⟨"NZ".data, s1g_channels_NZ.length, s1g_channels_NZ⟩

/-- s1g_channels_US (mm_app_regdb.c lines 275-325). -/
def s1g_channels_US : List mmwlan_s1g_channel := [
  ⟨902500000, 10000, false, 68, 1, 1, 1, 36, 0, 0, 0⟩,
  ⟨903500000, 10000, false, 68, 1, 3, 1, 36, 0, 0, 0⟩,
  ⟨904500000, 10000, false, 68, 1, 5, 1, 36, 0, 0, 0⟩,
  ⟨905500000, 10000, false, 68, 1, 7, 1, 36, 0, 0, 0⟩,
  ⟨906500000, 10000, false, 68, 1, 9, 1, 36, 0, 0, 0⟩,
  ⟨907500000, 10000, false, 68, 1, 11, 1, 36, 0, 0, 0⟩,
  ⟨908500000, 10000, false, 68, 1, 13, 1, 36, 0, 0, 0⟩,
  ⟨909500000, 10000, false, 68, 1, 15, 1, 36, 0, 0, 0⟩,
  ⟨910500000, 10000, false, 68, 1, 17, 1, 36, 0, 0, 0⟩,
  ⟨911500000, 10000, false, 68, 1, 19, 1, 36, 0, 0, 0⟩,
  ⟨912500000, 10000, false, 68, 1, 21, 1, 36, 0, 0, 0⟩,
  ⟨913500000, 10000, false, 68, 1, 23, 1, 36, 0, 0, 0⟩,
  ⟨914500000, 10000, false, 68, 1, 25, 1, 36, 0, 0, 0⟩,
  ⟨915500000, 10000, false, 68, 1, 27, 1, 36, 0, 0, 0⟩,
  ⟨916500000, 10000, false, 68, 1, 29, 1, 36, 0, 0, 0⟩,
  ⟨917500000, 10000, false, 68, 1, 31, 1, 36, 0, 0, 0⟩,
  ⟨918500000, 10000, false, 68, 1, 33, 1, 36, 0, 0, 0⟩,
  ⟨919500000, 10000, false, 68, 1, 35, 1, 36, 0, 0, 0⟩,
  ⟨920500000, 10000, false, 68, 1, 37, 1, 36, 0, 0, 0⟩,
  ⟨921500000, 10000, false, 68, 1, 39, 1, 36, 0, 0, 0⟩,
  ⟨922500000, 10000, false, 68, 1, 41, 1, 36, 0, 0, 0⟩,
  ⟨923500000, 10000, false, 68, 1, 43, 1, 36, 0, 0, 0⟩,
  ⟨924500000, 10000, false, 68, 1, 45, 1, 36, 0, 0, 0⟩,
  ⟨925500000, 10000, false, 68, 1, 47, 1, 36, 0, 0, 0⟩,
  ⟨926500000, 10000, false, 68, 1, 49, 1, 36, 0, 0, 0⟩,
  ⟨927500000, 10000, false, 68, 1, 51, 1, 36, 0, 0, 0⟩,
  ⟨903000000, 10000, false, 69, 2, 2, 2, 36, 0, 0, 0⟩,
  ⟨905000000, 10000, false, 69, 2, 6, 2, 36, 0, 0, 0⟩,
  ⟨907000000, 10000, false, 69, 2, 10, 2, 36, 0, 0, 0⟩,
  ⟨909000000, 10000, false, 69, 2, 14, 2, 36, 0, 0, 0⟩,
  ⟨911000000, 10000, false, 69, 2, 18, 2, 36, 0, 0, 0⟩,
  ⟨913000000, 10000, false, 69, 2, 22, 2, 36, 0, 0, 0⟩,
  ⟨915000000, 10000, false, 69, 2, 26, 2, 36, 0, 0, 0⟩,
  ⟨917000000, 10000, false, 69, 2, 30, 2, 36, 0, 0, 0⟩,
  ⟨919000000, 10000, false, 69, 2, 34, 2, 36, 0, 0, 0⟩,
  ⟨921000000, 10000, false, 69, 2, 38, 2, 36, 0, 0, 0⟩,
  ⟨923000000, 10000, false, 69, 2, 42, 2, 36, 0, 0, 0⟩,
  ⟨925000000, 10000, false, 69, 2, 46, 2, 36, 0, 0, 0⟩,
  ⟨927000000, 10000, false, 69, 2, 50, 2, 36, 0, 0, 0⟩,
  ⟨906000000, 10000, false, 70, 3, 8, 4, 36, 0, 0, 0⟩,
  ⟨910000000, 10000, false, 70, 3, 16, 4, 36, 0, 0, 0⟩,
  ⟨914000000, 10000, false, 70, 3, 24, 4, 36, 0, 0, 0⟩,
  ⟨918000000, 10000, false, 70, 3, 32, 4, 36, 0, 0, 0⟩,
  ⟨922000000, 10000, false, 70, 3, 40, 4, 36, 0, 0, 0⟩,
  ⟨926000000, 10000, false, 70, 3, 48, 4, 36, 0, 0, 0⟩,
  ⟨908000000, 10000, false, 71, 4, 12, 8, 36, 0, 0, 0⟩,
  ⟨916000000, 10000, false, 71, 4, 28, 8, 36, 0, 0, 0⟩,
  ⟨924000000, 10000, false, 71, 4, 44, 8, 36, 0, 0, 0⟩]

/-- s1g_channel_list_US (mm_app_regdb.c lines 328-332). -/
def s1g_channel_list_US : mmwlan_s1g_channel_list :=
  ⟨"US".data, s1g_channels_US.length, s1g_channels_US⟩

/-- regulatory_db_domains (mm_app_regdb.c lines 336-346). -/
def regulatory_db_domains : List mmwlan_s1g_channel_list := [
  s1g_channel_list_AU,
  s1g_channel_list_CA,
  s1g_channel_list_EU,
  s1g_channel_list_GB,
  s1g_channel_list_IN,
  s1g_channel_list_JP,
  s1g_channel_list_KR,
  s1g_channel_list_NZ,
  s1g_channel_list_US]

/-- regulatory_db (mm_app_regdb.c lines 349-352). -/
def regulatory_db : mmwlan_regulatory_db :=
  ⟨regulatory_db_domains.length, regulatory_db_domains⟩

/-- get_regulatory_db (mm_app_regdb.c lines 359-362). -/
def get_regulatory_db : mmwlan_regulatory_db := regulatory_db

/-- Modelled from the spec: `mmwlan_lookup_regulatory_domain` belongs to the
Morse Micro driver SDK (`mmwlan.h`), whose implementation is not among the
sources. The spec describes it as a pure scan of the fixed table that
returns the first exact (case-sensitive) country-code match, or not-found. -/
def mmwlan_lookup_regulatory_domain (db : mmwlan_regulatory_db) (cc : CStr) :
    Option mmwlan_s1g_channel_list :=
  db.domains.find? (fun d => d.country_code == cc)

/-- halow_start (task_halow.c lines 357-451) with the country code and the
synchronous driver statuses as parameters. Requires the module inited and
not yet started; on first boot: regulatory lookup (fail returns -1 with no
driver call), then set_channel_list, the two callback registrations, boot
and mmipal_init, each aborting on failure; then marks booted and started
and runs halow_auto_connect, discarding its result. On an already booted
interface it only re-registers the callbacks (failures logged and
ignored). -/
def halow_start (s : HalowState) (store : NvsStore) (cc : CStr)
    (okSetChan okRegLink okRegRx okBoot okIpal : Bool)
    (acc bits : Nat → Bool) : HalowState × Int × List Ev :=
  if s.halow_init_done = false then (s, -1, [])
  else if s.halow_started then (s, 0, [])
  else if s.halow_booted = false then
    match mmwlan_lookup_regulatory_domain regulatory_db cc with
    | none => (s, -1, [])
    | some _ =>
      if okSetChan = false then (s, -1, [Ev.setChannelList])
      else if okRegLink = false then
        (s, -1, [Ev.setChannelList, Ev.regLinkStateCb])
      else if okRegRx = false then
        (s, -1, [Ev.setChannelList, Ev.regLinkStateCb, Ev.regRxCb])
      else if okBoot = false then
        (s, -1, [Ev.setChannelList, Ev.regLinkStateCb, Ev.regRxCb, Ev.boot])
      else if okIpal = false then
        (s, -1, [Ev.setChannelList, Ev.regLinkStateCb, Ev.regRxCb, Ev.boot,
                 Ev.ipalInit])
      else
        let s1 := { s with halow_booted := true, halow_started := true }
        let a := halow_auto_connect s1 store acc bits
        (a.1, 0, [Ev.setChannelList, Ev.regLinkStateCb, Ev.regRxCb, Ev.boot,
                  Ev.ipalInit] ++ a.2.2)
  else
    let s1 := { s with halow_started := true }
    let a := halow_auto_connect s1 store acc bits
    (a.1, 0, [Ev.regLinkStateCb, Ev.regRxCb] ++ a.2.2)

/-- A concrete module state right after a successful init and start, with
empty buffers: used as the base point of concrete evaluations. -/
def stateStarted : HalowState :=
  { halow_init_done := true
    halow_started := true
    halow_booted := true
    connectedBit := false
    scanDoneBit := false
    halow_last_password := []
    halow_connected_ssid := []
    halow_save_pending_ssid := []
    halow_save_pending_password := []
    scan_count := 0 }

/-- A concrete module state with a pending-save attempt for network "net1"
with password "pw1". -/
def statePending : HalowState :=
  { stateStarted with
      halow_save_pending_ssid := "net1".data
      halow_save_pending_password := "pw1".data }

/-- A concrete NVS store that opens but has no saved record. -/
def storeEmpty : NvsStore :=
  { avail := true, ssid := none, password := none, valid := none, commits := 0 }

/-- A concrete NVS store holding the saved credential ("net1", "pw1"). -/
def storeNet : NvsStore :=
  { avail := true, ssid := some "net1".data, password := some "pw1".data,
    valid := some 1, commits := 0 }

/-- Driver-acceptance oracle that accepts every request. -/
def accAlways : Nat → Bool := fun _ => true

/-- Wait oracle with the CONNECTED bit never observed set. -/
def bitsNever : Nat → Bool := fun _ => false

/-- A 65-character passphrase, longer than the 64-byte limit. -/
def pw65 : CStr := List.replicate 65 'a'

/-- Claim C1: a call to halow_connect whose ssid is absent (NULL), empty or
longer than 32 bytes, or whose password is longer than 64 bytes, returns
the validation error -1 and issues no call to the driver adapter: its event
trace is empty, so mmwlan_sta_enable is never invoked on that call. -/
theorem halow_connect_rejects_invalid_input (s : HalowState)
    (ssid password : Option CStr) (ok : Bool)
    (h : ssid = none ∨ (∃ sd, ssid = some sd ∧ (sd.length = 0 ∨ 32 < sd.length)) ∨
         (∃ p, password = some p ∧ 64 < p.length)) :
    (halow_connect s ssid password ok).2.1 = -1 ∧
    (halow_connect s ssid password ok).2.2 = [] := by
  unfold halow_connect
  rcases h with rfl | ⟨sd, rfl, hsd⟩ | ⟨p, rfl, hp⟩
  · split
    · exact ⟨rfl, rfl⟩
    · exact ⟨rfl, rfl⟩
  · split
    · exact ⟨rfl, rfl⟩
    · simp only
      rcases hsd with hsd | hsd
      · rw [if_pos hsd]
        exact ⟨rfl, rfl⟩
      · rw [if_neg (by omega)]
        rw [if_pos (show MMWLAN_SSID_MAXLEN < sd.length from hsd)]
        exact ⟨rfl, rfl⟩
  · split
    · exact ⟨rfl, rfl⟩
    · rcases ssid with _ | sd
      · exact ⟨rfl, rfl⟩
      · simp only
        by_cases hlen : sd.length = 0
        · rw [if_pos hlen]; exact ⟨rfl, rfl⟩
        · rw [if_neg hlen]
          by_cases hbig : MMWLAN_SSID_MAXLEN < sd.length
          · rw [if_pos hbig]; exact ⟨rfl, rfl⟩
          · rw [if_neg hbig]
            rw [if_pos (show passphrase_too_long (some p) = true by
              simp [passphrase_too_long, MMWLAN_PASSPHRASE_MAXLEN]; omega)]
            exact ⟨rfl, rfl⟩

/-- Witness for C1: connecting with a NULL ssid, and with the 65-byte
password pw65, is rejected with -1 and an empty driver-call trace. -/
theorem halow_connect_rejects_invalid_input_ex :
    ((halow_connect stateStarted none none true).2.1 = -1 ∧
     (halow_connect stateStarted none none true).2.2 = []) ∧
    ((halow_connect stateStarted (some "net1".data) (some pw65) true).2.1 = -1 ∧
     (halow_connect stateStarted (some "net1".data) (some pw65) true).2.2 = []) :=
  ⟨halow_connect_rejects_invalid_input stateStarted none none true (Or.inl rfl),
   halow_connect_rejects_invalid_input stateStarted (some "net1".data)
     (some pw65) true (Or.inr (Or.inr ⟨pw65, rfl, by decide⟩))⟩

/-- Claim C10: when halow_connect rejects a call because the password
exceeds the driver's maximum passphrase length, the rejection is not
side-effect free: the returned state shows halow_last_password already
overwritten with the 63-byte truncation of the rejected password, while
the driver is never called (empty trace) and every other field — in
particular the pending-save buffers and the displayed ssid — is still
untouched. -/
theorem halow_connect_password_too_long_side_effect (s : HalowState)
    (sd p : CStr) (ok : Bool) (hst : s.halow_started = true)
    (hne : sd ≠ []) (hlen : sd.length ≤ 32) (hp : 64 < p.length) :
    halow_connect s (some sd) (some p) ok =
      ({ s with halow_last_password := p.take 63 }, -1, []) := by
  unfold halow_connect
  rw [if_neg (by simp [hst])]
  simp only
  rw [if_neg (by simp [List.length_eq_zero, hne])]
  rw [if_neg (show ¬ MMWLAN_SSID_MAXLEN < sd.length by
    simp [MMWLAN_SSID_MAXLEN]; omega)]
  rw [if_pos (show passphrase_too_long (some p) = true by
    simp [passphrase_too_long, MMWLAN_PASSPHRASE_MAXLEN]; omega)]
  have hppos : 0 < p.length := by omega
  simp [strncpy_trunc, MAX_PASSWORD_LEN, hppos]

/-- Witness for C10: rejecting pw65 from a state with an old last password
leaves the 63-byte truncation of pw65 in halow_last_password. -/
theorem halow_connect_password_too_long_side_effect_ex :
    halow_connect
        ({ stateStarted with halow_last_password := "old".data })
        (some "net1".data) (some pw65) true =
      ({ stateStarted with halow_last_password := pw65.take 63 }, -1, []) :=
  halow_connect_password_too_long_side_effect
    ({ stateStarted with halow_last_password := "old".data })
    "net1".data pw65 true rfl (by decide) (by decide) (by decide)

/-- Claim C2: when the STA status callback reports CONNECTED (2) and a
pending-save ssid exists, the handler sets the CONNECTED bit, records the
pending ssid as the connected ssid for status display, transforms the
credential store exactly as the save-if-different operation on the pending
(ssid, password) pair does, and clears both pending-save buffers. The
length bound is the 32-character capacity invariant of the pending
buffer. -/
theorem sta_status_connected_saves_and_clears (s : HalowState)
    (store : NvsStore) (hpend : s.halow_save_pending_ssid ≠ [])
    (hlen : s.halow_save_pending_ssid.length ≤ 32) :
    (halow_sta_status_handler s store 2).1.connectedBit = true ∧
    (halow_sta_status_handler s store 2).1.halow_connected_ssid =
      s.halow_save_pending_ssid ∧
    (halow_sta_status_handler s store 2).2 =
      (halow_save_if_different store s.halow_save_pending_ssid
        (some s.halow_save_pending_password)).1 ∧
    (halow_sta_status_handler s store 2).1.halow_save_pending_ssid = [] ∧
    (halow_sta_status_handler s store 2).1.halow_save_pending_password = [] := by
  unfold halow_sta_status_handler
  rw [if_pos rfl]
  simp only
  rw [if_pos hpend]
  refine ⟨rfl, ?_, ?_, rfl, rfl⟩
  · simpa [strncpy_trunc] using List.take_of_length_le hlen
  · unfold halow_save_if_different
    split
    · rfl
    · rfl

/-- Witness for C2: from the concrete pending attempt ("net1", "pw1") and
the empty store, the handler on CONNECTED records "net1", applies the
save-if-different result and empties both pending buffers. -/
theorem sta_status_connected_saves_and_clears_ex :
    (halow_sta_status_handler statePending storeEmpty 2).1.connectedBit = true ∧
    (halow_sta_status_handler statePending storeEmpty 2).1.halow_connected_ssid =
      "net1".data ∧
    (halow_sta_status_handler statePending storeEmpty 2).2 =
      (halow_save_if_different storeEmpty "net1".data (some "pw1".data)).1 ∧
    (halow_sta_status_handler statePending storeEmpty 2).1.halow_save_pending_ssid
      = [] ∧
    (halow_sta_status_handler statePending
        storeEmpty 2).1.halow_save_pending_password = [] :=
  sta_status_connected_saves_and_clears statePending storeEmpty
    (by decide) (by decide)

/-- Counterexample to claim C3: at the concrete state with the pending
attempt ("net1", "pw1"), the STA status handler on CONNECTING (1) — per the
claim a terminal failure whose handling clears the PendingAttempt — leaves
the pending-save ssid buffer equal to "net1", which is not empty, and the
pending-save password buffer equal to "pw1". -/
theorem sta_status_failure_pending_not_cleared_cex :
    (halow_sta_status_handler statePending storeEmpty
        1).1.halow_save_pending_ssid = "net1".data ∧
    (halow_sta_status_handler statePending storeEmpty
        1).1.halow_save_pending_password = "pw1".data ∧
    "net1".data ≠ ([] : CStr) := by
  refine ⟨rfl, rfl, by decide⟩

/-- Claim C3 (amended): when the STA status callback reports DISABLED (0)
or CONNECTING (1), the handler clears the CONNECTED bit, clears the
displayed ssid and discards the in-memory password copy
(halow_last_password), but it does not touch the PendingAttempt: both
pending-save buffers keep their previous contents, and the store is
unchanged. The pending buffers are cleared only by the CONNECTED branch of
the handler or by the synchronous-rejection path of halow_connect. -/
theorem sta_status_failure_clears_flags_keeps_pending (s : HalowState)
    (store : NvsStore) (st : Nat) (h : st = 0 ∨ st = 1) :
    (halow_sta_status_handler s store st).1.connectedBit = false ∧
    (halow_sta_status_handler s store st).1.halow_connected_ssid = [] ∧
    (halow_sta_status_handler s store st).1.halow_last_password = [] ∧
    (halow_sta_status_handler s store st).1.halow_save_pending_ssid =
      s.halow_save_pending_ssid ∧
    (halow_sta_status_handler s store st).1.halow_save_pending_password =
      s.halow_save_pending_password ∧
    (halow_sta_status_handler s store st).2 = store := by
  rcases h with rfl | rfl
  · unfold halow_sta_status_handler
    rw [if_neg (by omega), if_pos (Or.inl rfl)]
    exact ⟨rfl, rfl, rfl, rfl, rfl, rfl⟩
  · unfold halow_sta_status_handler
    rw [if_neg (by omega), if_pos (Or.inr rfl)]
    exact ⟨rfl, rfl, rfl, rfl, rfl, rfl⟩

/-- Witness for amended C3: from the concrete pending state, DISABLED (0)
clears the flags and keeps the pending pair ("net1", "pw1"). -/
theorem sta_status_failure_clears_flags_keeps_pending_ex :
    (halow_sta_status_handler statePending storeEmpty 0).1.connectedBit = false ∧
    (halow_sta_status_handler statePending storeEmpty
        0).1.halow_connected_ssid = [] ∧
    (halow_sta_status_handler statePending storeEmpty
        0).1.halow_last_password = [] ∧
    (halow_sta_status_handler statePending storeEmpty
        0).1.halow_save_pending_ssid = statePending.halow_save_pending_ssid ∧
    (halow_sta_status_handler statePending storeEmpty
        0).1.halow_save_pending_password =
      statePending.halow_save_pending_password ∧
    (halow_sta_status_handler statePending storeEmpty 0).2 = storeEmpty :=
  sta_status_failure_clears_flags_keeps_pending statePending storeEmpty 0
    (Or.inl rfl)

/-- Counterexample to claim C4: starting from the started state, a first
halow_scan succeeds; with its completion callback never fired (the
SCAN_DONE bit of the intermediate state is still false), a second
halow_scan returns 0 — success, not a Busy error — and its trace shows a
new mmwlan_scan_request issued to the driver. -/
theorem halow_scan_overlap_not_rejected_cex :
    (halow_scan stateStarted true).2.1 = 0 ∧
    (halow_scan stateStarted true).1.scanDoneBit = false ∧
    (halow_scan (halow_scan stateStarted true).1 true).2.1 = 0 ∧
    (halow_scan (halow_scan stateStarted true).1 true).2.2 =
      [Ev.scanRequest] := ⟨rfl, rfl, rfl, rfl⟩

/-- Claim C4 (amended): halow_scan has no overlap guard. In every started
state — including one where a previous scan's completion callback has not
yet fired — it resets scan_count to 0 and issues a new mmwlan_scan_request
to the driver, returning 0 when the driver accepts and -1 only on a
synchronous driver rejection; no Busy error exists. -/
theorem halow_scan_unguarded (s : HalowState) (ok : Bool)
    (h : s.halow_started = true) :
    halow_scan s ok =
      ({ s with scan_count := 0 }, if ok then 0 else -1, [Ev.scanRequest]) := by
  cases ok <;> simp [halow_scan, h]

/-- Witness for amended C4: a scan from the started state resets the
counter and issues the request. -/
theorem halow_scan_unguarded_ex :
    halow_scan stateStarted true =
      ({ stateStarted with scan_count := 0 }, if true then 0 else -1,
        [Ev.scanRequest]) :=
  halow_scan_unguarded stateStarted true rfl

/-- Counterexample to claim C8: the description table has exactly three
entries, and for the status value 3 — representable in the C integer
carrier of `enum mmwlan_sta_state`, which the unchecked index
`sta_state_desc[sta_state]` does not guard against — the lookup is out of
bounds (`none`), so the table lookup is not safe for all inputs of the
callback's status parameter type. -/
theorem sta_state_desc_out_of_bounds_cex :
    sta_state_desc.length = 3 ∧ sta_state_desc_lookup 3 = none := ⟨rfl, rfl⟩

/-- Claim C8 (amended): the description-table lookup of the STA status
handler is in bounds exactly for the three declared status values — 0
(DISABLED), 1 (CONNECTING), 2 (CONNECTED), which it maps to their display
names — and reads out of bounds (modelled as `none`) for every other value
of the status parameter's integer carrier, since the code performs no
bounds check. -/
theorem sta_state_desc_lookup_bounds :
    (∀ n : Nat, (sta_state_desc_lookup n).isSome ↔ n < 3) ∧
    sta_state_desc_lookup 0 = some "DISABLED" ∧
    sta_state_desc_lookup 1 = some "CONNECTING" ∧
    sta_state_desc_lookup 2 = some "CONNECTED" := by
  refine ⟨?_, rfl, rfl, rfl⟩
  intro n
  match n with
  | 0 => simp [sta_state_desc_lookup, sta_state_desc]
  | 1 => simp [sta_state_desc_lookup, sta_state_desc]
  | 2 => simp [sta_state_desc_lookup, sta_state_desc]
  | n + 3 =>
    constructor
    · intro h
      exact absurd h (by simp [sta_state_desc_lookup, sta_state_desc])
    · omega

/-- Counterexample to claim C5: halow_save_network_config itself performs
no comparison. Called twice in succession with the identical pair
("net1", "pw1") from the empty store (0 commits), it performs two
write-and-commit cycles, not one: the commit counter ends at 2. -/
theorem halow_save_twice_commits_twice_cex :
    storeEmpty.commits = 0 ∧
    ((halow_save_network_config
        (halow_save_network_config storeEmpty (some "net1".data)
          (some "pw1".data)).1
        (some "net1".data) (some "pw1".data)).1).commits = 2 ∧
    (2 : Nat) ≠ 1 := ⟨rfl, rfl, by decide⟩

/-- Claim C5 (amended): the compare-before-write no-op optimization lives
in the caller, not in halow_save_network_config: the status handler first
calls halow_should_save_network_config and skips the save when the stored
pair already matches. That guarded sequence (halow_save_if_different),
called twice with an identical, loadable pair (available store, ssid of 1
to 31 bytes, password of at most 63 bytes), commits at most once — exactly
once when the pair was not already stored — with both calls returning
success, the second being a compare-detected no-op; and
halow_load_network_config immediately afterwards returns that same pair. -/
theorem halow_save_if_different_idempotent (store : NvsStore) (sd pw : CStr)
    (hav : store.avail = true) (hne : sd ≠ []) (hsl : sd.length ≤ 31)
    (hpl : pw.length ≤ 63) :
    (halow_save_if_different store sd (some pw)).2 = ESP_OK ∧
    (halow_save_if_different (halow_save_if_different store sd
        (some pw)).1 sd (some pw)).2 = ESP_OK ∧
    (halow_save_if_different (halow_save_if_different store sd
        (some pw)).1 sd (some pw)).1.commits =
      (halow_save_if_different store sd (some pw)).1.commits ∧
    (halow_save_if_different store sd (some pw)).1.commits ≤
      store.commits + 1 ∧
    (halow_should_save_network_config store sd (some pw) = true →
      (halow_save_if_different store sd (some pw)).1.commits =
        store.commits + 1) ∧
    halow_load_network_config
      (halow_save_if_different (halow_save_if_different store sd
        (some pw)).1 sd (some pw)).1 = some (sd, pw) := by
  have hlen0 : ¬ sd.length = 0 := by
    simpa [List.length_eq_zero] using hne
  by_cases hss : halow_should_save_network_config store sd (some pw) = true
  · -- the first call writes; afterwards the stored pair matches
    have hsave : halow_save_if_different store sd (some pw) =
        ({ store with ssid := some sd, password := some pw, valid := some 1, commits := store.commits + 1 }, ESP_OK) := by
      unfold halow_save_if_different
      rw [if_pos hss]
      simp [halow_save_network_config, hlen0, hav]
    have hload1 : halow_load_network_config
        ({ store with ssid := some sd, password := some pw, valid := some 1, commits := store.commits + 1 } : NvsStore) = some (sd, pw) := by
      simp only [halow_load_network_config, hav]
      rw [if_neg (by simp [hav])]
      rw [if_neg (by simp [MAX_SSID_LEN]; omega)]
      rw [if_neg (by simp [MAX_PASSWORD_LEN]; omega)]
    have hss2 : halow_should_save_network_config
        ({ store with ssid := some sd, password := some pw, valid := some 1, commits := store.commits + 1 } : NvsStore) sd (some pw) = false := by
      unfold halow_should_save_network_config
      rw [hload1]
      simp
    have hskip : halow_save_if_different
        ({ store with ssid := some sd, password := some pw, valid := some 1, commits := store.commits + 1 } : NvsStore) sd (some pw) =
        ({ store with ssid := some sd, password := some pw, valid := some 1, commits := store.commits + 1 }, ESP_OK) := by
      unfold halow_save_if_different
      rw [hss2]
      simp
    refine ⟨?_, ?_, ?_, ?_, fun _ => ?_, ?_⟩ <;>
      simp [hsave, hskip, hload1]
  · -- the stored pair already matches: both calls skip
    have hmatch : halow_load_network_config store = some (sd, pw) := by
      by_contra hne2
      apply hss
      unfold halow_should_save_network_config
      rcases hl : halow_load_network_config store with _ | ⟨ss, sp⟩
      · rfl
      · simp only
        by_cases h1 : ss = sd
        · by_cases h2 : sp = pw
          · exact absurd (by rw [hl, h1, h2]) hne2
          · rw [if_neg (by simp [h1]), if_pos (by simp [h2])]
        · rw [if_pos (by simp [h1])]
    have hskip : halow_save_if_different store sd (some pw) =
        (store, ESP_OK) := by
      unfold halow_save_if_different
      rw [if_neg hss]
    have hssf : halow_should_save_network_config store sd (some pw) = false :=
      Bool.eq_false_iff.mpr (fun h => hss (by rw [h]))
    refine ⟨?_, ?_, ?_, ?_, fun h => absurd h hss, ?_⟩ <;>
      simp [hskip, hmatch, Nat.le_succ]


/-- Witness for amended C5: the guarded save of ("net1", "pw1") applied
twice from the empty store commits once, both calls succeed, and the load
afterwards returns the pair. -/
theorem halow_save_if_different_idempotent_ex :
    (halow_save_if_different storeEmpty "net1".data (some "pw1".data)).2 =
      ESP_OK ∧
    (halow_save_if_different (halow_save_if_different storeEmpty "net1".data
        (some "pw1".data)).1 "net1".data (some "pw1".data)).2 = ESP_OK ∧
    (halow_save_if_different (halow_save_if_different storeEmpty "net1".data
        (some "pw1".data)).1 "net1".data (some "pw1".data)).1.commits =
      (halow_save_if_different storeEmpty "net1".data
        (some "pw1".data)).1.commits ∧
    (halow_save_if_different storeEmpty "net1".data (some "pw1".data)).1.commits
      ≤ storeEmpty.commits + 1 ∧
    (halow_should_save_network_config storeEmpty "net1".data
        (some "pw1".data) = true →
      (halow_save_if_different storeEmpty "net1".data
          (some "pw1".data)).1.commits = storeEmpty.commits + 1) ∧
    halow_load_network_config
      (halow_save_if_different (halow_save_if_different storeEmpty "net1".data
        (some "pw1".data)).1 "net1".data (some "pw1".data)).1 =
      some ("net1".data, "pw1".data) :=
  halow_save_if_different_idempotent storeEmpty "net1".data "pw1".data
    rfl (by decide) (by decide) (by decide)

/-- Helper: loading succeeds on a store whose fields hold a valid record
that fits the load buffers. -/
theorem halow_load_of_fields (store : NvsStore) (sd pw : CStr)
    (hav : store.avail = true) (hv : store.valid = some 1)
    (hs : store.ssid = some sd) (hp : store.password = some pw)
    (hsl : sd.length ≤ 31) (hpl : pw.length ≤ 63) :
    halow_load_network_config store = some (sd, pw) := by
  unfold halow_load_network_config
  rw [if_neg (by simp [hav]), hv]
  simp only
  rw [hs]
  simp only
  rw [if_neg (by simp [MAX_SSID_LEN]; omega), hp]
  simp only
  rw [if_neg (by simp [MAX_PASSWORD_LEN]; omega)]

/-- Helper: a halow_connect call from a started state with a valid ssid and
an acceptable password that the driver accepts returns 0 with exactly one
staEnable driver call, and leaves halow_started and the CONNECTED bit of
the state unchanged. -/
theorem halow_connect_accepted (s : HalowState) (sd : CStr) (pwo : Option CStr)
    (hst : s.halow_started = true) (hne : sd ≠ []) (hlen : sd.length ≤ 32)
    (hpw : ∀ p, pwo = some p → p.length ≤ 64) :
    ∃ s2, halow_connect s (some sd) pwo true = (s2, 0, [Ev.staEnable]) ∧
      s2.halow_started = true ∧ s2.connectedBit = s.connectedBit := by
  unfold halow_connect
  rw [if_neg (by simp [hst])]
  simp only
  rw [if_neg (by simp [List.length_eq_zero, hne])]
  rw [if_neg (show ¬ MMWLAN_SSID_MAXLEN < sd.length by
    simp [MMWLAN_SSID_MAXLEN]; omega)]
  rw [if_neg (show ¬ passphrase_too_long pwo = true by
    rcases pwo with _ | p
    · simp [passphrase_too_long]
    · have hb := hpw p rfl
      simp [passphrase_too_long, MMWLAN_PASSPHRASE_MAXLEN]
      omega)]
  rw [if_pos trivial]
  exact ⟨_, rfl, hst, rfl⟩

/-- Claim C6: when a loadable credential is stored and the driver accepts
every enable request, halow_auto_connect behaves as the bounded retry
policy: with the CONNECTED bit never observed, it makes exactly 3 connect
attempts (each issuing one staEnable and then waiting up to 5000 ms on the
CONNECTED bit), sleeps 2000 ms after attempts 1 and 2 and not after
attempt 3, returns -1, and leaves the CONNECTED bit of the state exactly
as the callbacks last left it; and as soon as a wait observes the
CONNECTED bit — on attempt 1, 2 or 3 — it stops immediately with 0 and no
further attempt or delay. -/
theorem halow_auto_connect_retry_policy (s : HalowState) (store : NvsStore)
    (acc : Nat → Bool) (sd pw : CStr) (pwo : Option CStr)
    (hav : store.avail = true) (hv : store.valid = some 1)
    (hs : store.ssid = some sd) (hp : store.password = some pw)
    (hne : sd ≠ []) (hsl : sd.length ≤ 31) (hpl : pw.length ≤ 63)
    (hst : s.halow_started = true) (hacc : ∀ i, acc i = true)
    (hpwo : pwo = if 0 < pw.length then some pw else none) :
    (∀ bits : Nat → Bool, (∀ i, bits i = false) →
      (halow_auto_connect s store acc bits).2.1 = -1 ∧
      (halow_auto_connect s store acc bits).2.2 =
        [Ev.connectCall sd pwo, Ev.staEnable, Ev.waitConnected 5000,
         Ev.delay 2000,
         Ev.connectCall sd pwo, Ev.staEnable, Ev.waitConnected 5000,
         Ev.delay 2000,
         Ev.connectCall sd pwo, Ev.staEnable, Ev.waitConnected 5000] ∧
      (halow_auto_connect s store acc bits).1.connectedBit =
        s.connectedBit) ∧
    (∀ bits : Nat → Bool, bits 1 = true →
      (halow_auto_connect s store acc bits).2.1 = 0 ∧
      (halow_auto_connect s store acc bits).2.2 =
        [Ev.connectCall sd pwo, Ev.staEnable, Ev.waitConnected 5000]) ∧
    (∀ bits : Nat → Bool, bits 1 = false → bits 2 = true →
      (halow_auto_connect s store acc bits).2.1 = 0 ∧
      (halow_auto_connect s store acc bits).2.2 =
        [Ev.connectCall sd pwo, Ev.staEnable, Ev.waitConnected 5000,
         Ev.delay 2000,
         Ev.connectCall sd pwo, Ev.staEnable, Ev.waitConnected 5000]) ∧
    (∀ bits : Nat → Bool, bits 1 = false → bits 2 = false → bits 3 = true →
      (halow_auto_connect s store acc bits).2.1 = 0 ∧
      (halow_auto_connect s store acc bits).2.2 =
        [Ev.connectCall sd pwo, Ev.staEnable, Ev.waitConnected 5000,
         Ev.delay 2000,
         Ev.connectCall sd pwo, Ev.staEnable, Ev.waitConnected 5000,
         Ev.delay 2000,
         Ev.connectCall sd pwo, Ev.staEnable, Ev.waitConnected 5000]) := by
  have hload := halow_load_of_fields store sd pw hav hv hs hp hsl hpl
  have hpw64 : ∀ p, pwo = some p → p.length ≤ 64 := by
    intro p hp2
    rw [hpwo] at hp2
    by_cases h0 : 0 < pw.length
    · rw [if_pos h0] at hp2
      simp only [Option.some.injEq] at hp2
      subst hp2
      omega
    · rw [if_neg h0] at hp2
      exact absurd hp2 (by simp)
  have step : ∀ (t : HalowState) (attempt : Nat), t.halow_started = true →
      ∃ s2, halow_connect t (some sd) pwo (acc attempt) =
          (s2, 0, [Ev.staEnable]) ∧
        s2.halow_started = true ∧ s2.connectedBit = t.connectedBit := by
    intro t attempt ht
    rw [hacc attempt]
    exact halow_connect_accepted t sd pwo ht hne (by omega) hpw64
  obtain ⟨t1, e1, ht1, hb1⟩ := step s 1 hst
  obtain ⟨t2, e2, ht2, hb2⟩ := step t1 2 ht1
  obtain ⟨t3, e3, ht3, hb3⟩ := step t2 3 ht2
  refine ⟨?_, ?_, ?_, ?_⟩
  · intro bits hbits
    refine ⟨?_, ?_, ?_⟩ <;>
      simp [halow_auto_connect, hload, ← hpwo, AUTO_CONNECT_MAX_ATTEMPTS,
            AUTO_CONNECT_RETRY_DELAY_MS, halow_auto_connect_loop,
            e1, e2, e3, hbits, hb1, hb2, hb3]
  · intro bits h1
    refine ⟨?_, ?_⟩ <;>
      simp [halow_auto_connect, hload, ← hpwo, AUTO_CONNECT_MAX_ATTEMPTS,
            AUTO_CONNECT_RETRY_DELAY_MS, halow_auto_connect_loop, e1, h1]
  · intro bits h1 h2
    refine ⟨?_, ?_⟩ <;>
      simp [halow_auto_connect, hload, ← hpwo, AUTO_CONNECT_MAX_ATTEMPTS,
            AUTO_CONNECT_RETRY_DELAY_MS, halow_auto_connect_loop,
            e1, e2, h1, h2]
  · intro bits h1 h2 h3
    refine ⟨?_, ?_⟩ <;>
      simp [halow_auto_connect, hload, ← hpwo, AUTO_CONNECT_MAX_ATTEMPTS,
            AUTO_CONNECT_RETRY_DELAY_MS, halow_auto_connect_loop,
            e1, e2, e3, h1, h2, h3]

/-- Witness for C6: auto-connect on the stored credential ("net1", "pw1")
with an always-accepting driver and the CONNECTED bit never observed
returns -1 after exactly the 3-attempt trace with its 5000 ms waits and
two 2000 ms delays. -/
theorem halow_auto_connect_retry_policy_ex :
    (halow_auto_connect stateStarted storeNet accAlways bitsNever).2.1 = -1 ∧
    (halow_auto_connect stateStarted storeNet accAlways bitsNever).2.2 =
      [Ev.connectCall "net1".data (some "pw1".data), Ev.staEnable,
       Ev.waitConnected 5000, Ev.delay 2000,
       Ev.connectCall "net1".data (some "pw1".data), Ev.staEnable,
       Ev.waitConnected 5000, Ev.delay 2000,
       Ev.connectCall "net1".data (some "pw1".data), Ev.staEnable,
       Ev.waitConnected 5000] ∧
    (halow_auto_connect stateStarted storeNet accAlways
        bitsNever).1.connectedBit = stateStarted.connectedBit :=
  (halow_auto_connect_retry_policy stateStarted storeNet accAlways
      "net1".data "pw1".data (some "pw1".data) rfl rfl rfl rfl
      (by decide) (by decide) (by decide) rfl (fun _ => rfl)
      (by decide)).1 bitsNever (fun _ => rfl)

/-- Counterexample to claim C7: with no saved credential (the empty store),
halow_auto_connect does return immediately with an empty trace, but its
return value is -1 — the function's error code, the same value it returns
after exhausting all attempts — not a success/no-op return distinct from
an error. -/
theorem auto_connect_no_config_returns_error_cex :
    halow_auto_connect stateStarted storeEmpty accAlways bitsNever =
      (stateStarted, -1, []) ∧ (-1 : Int) ≠ 0 := ⟨rfl, by decide⟩

/-- Claim C7 (amended): when halow_load_network_config finds no saved
credential, halow_auto_connect returns immediately: the state is unchanged
and the trace is empty, so no connect call and no driver call is issued;
the return value is -1, the same error code as a failed auto-connect,
which the only caller (halow_start) discards, so the start itself is
unaffected. -/
theorem auto_connect_no_config_is_noop (s : HalowState) (store : NvsStore)
    (acc bits : Nat → Bool)
    (h : halow_load_network_config store = none) :
    halow_auto_connect s store acc bits = (s, -1, []) := by
  unfold halow_auto_connect
  rw [h]

/-- Witness for amended C7: the empty store yields the unchanged state, -1
and the empty trace. -/
theorem auto_connect_no_config_is_noop_ex :
    halow_auto_connect stateStarted storeEmpty accAlways bitsNever =
      (stateStarted, -1, []) :=
  auto_connect_no_config_is_noop stateStarted storeEmpty accAlways bitsNever
    rfl

/-- Helper: a successful `List.find?` returns the first element of the
list satisfying the predicate. -/
theorem find?_first_match {α : Type} (p : α → Bool) :
    ∀ (l : List α) (a : α), l.find? p = some a →
      ∃ i, ∃ h : i < l.length, l.get ⟨i, h⟩ = a ∧ p a = true ∧
        ∀ j (hj : j < l.length), j < i → p (l.get ⟨j, hj⟩) = false := by
  intro l
  induction l with
  | nil => intro a h; simp [List.find?] at h
  | cons hd tl ih =>
    intro a h
    rcases hp : p hd with _ | _
    · rw [List.find?_cons_of_neg _ (by simp [hp])] at h
      obtain ⟨i, hi, hget, hpa, hfirst⟩ := ih a h
      refine ⟨i + 1, Nat.succ_lt_succ hi, by simpa using hget, hpa, ?_⟩
      intro j hj hlt
      cases j with
      | zero => simpa using hp
      | succ k =>
        have hk : k < tl.length := by simpa using hj
        have hf := hfirst k hk (by omega)
        simpa using hf
    · rw [List.find?_cons_of_pos _ hp] at h
      cases h
      exact ⟨0, by simp, rfl, hp, fun j hj hlt => absurd hlt (by omega)⟩

/-- A concrete module state after init but before the first start: not
started, not booted. -/
def stateInited : HalowState :=
  { stateStarted with halow_started := false, halow_booted := false }

/-- Claim C9: the regulatory resolver is a pure exact-match lookup: for
every country code it returns `none` precisely when no record of the
fixed table matches case-sensitively, and whenever it returns a record,
that record's country_code equals the query and it is the first matching
record in table order; and halow_start, called before the first boot,
fails with -1 and issues no driver call when this lookup fails for its
configured country code. -/
theorem halow_regulatory_lookup_first_match (cc : CStr) :
    (mmwlan_lookup_regulatory_domain regulatory_db cc = none ↔
      ∀ d ∈ regulatory_db.domains, d.country_code ≠ cc) ∧
    (∀ d, mmwlan_lookup_regulatory_domain regulatory_db cc = some d →
      d.country_code = cc ∧
      ∃ i, ∃ h : i < regulatory_db.domains.length,
        regulatory_db.domains.get ⟨i, h⟩ = d ∧
        ∀ j (hj : j < regulatory_db.domains.length), j < i →
          (regulatory_db.domains.get ⟨j, hj⟩).country_code ≠ cc) ∧
    (∀ (s : HalowState) (store : NvsStore)
        (okSetChan okRegLink okRegRx okBoot okIpal : Bool)
        (acc bits : Nat → Bool),
      s.halow_init_done = true → s.halow_started = false →
      s.halow_booted = false →
      mmwlan_lookup_regulatory_domain regulatory_db cc = none →
      halow_start s store cc okSetChan okRegLink okRegRx okBoot okIpal
        acc bits = (s, -1, [])) := by
  refine ⟨?_, ?_, ?_⟩
  · unfold mmwlan_lookup_regulatory_domain
    constructor
    · intro h d hd
      have hnp := List.find?_eq_none.mp h d hd
      simpa using hnp
    · intro h
      apply List.find?_eq_none.mpr
      intro d hd
      simpa using h d hd
  · intro d hfind
    unfold mmwlan_lookup_regulatory_domain at hfind
    obtain ⟨i, hi, hget, hpa, hfirst⟩ := find?_first_match _ _ _ hfind
    refine ⟨by simpa using hpa, i, hi, hget, ?_⟩
    intro j hj hlt
    have hf := hfirst j hj hlt
    simpa using hf
  · intro s store okSetChan okRegLink okRegRx okBoot okIpal acc bits
      h1 h2 h3 hlook
    unfold halow_start
    rw [if_neg (by simp [h1]), if_neg (by simp [h2]), if_pos (by simp [h3]),
      hlook]

/-- Witness for C9: the unknown code "XX" resolves to not-found, so
halow_start from a freshly inited state with country code "XX" fails with
-1 and an empty driver-call trace; and the record the lookup finds for
"US" indeed carries country code "US". -/
theorem halow_regulatory_lookup_first_match_ex :
    mmwlan_lookup_regulatory_domain regulatory_db "XX".data = none ∧
    halow_start stateInited storeEmpty "XX".data true true true true true
      accAlways bitsNever = (stateInited, -1, []) ∧
    s1g_channel_list_US.country_code = "US".data :=
  ⟨by rfl,
   (halow_regulatory_lookup_first_match "XX".data).2.2 stateInited storeEmpty
     true true true true true accAlways bitsNever rfl rfl rfl (by rfl),
   ((halow_regulatory_lookup_first_match "US".data).2.1 s1g_channel_list_US
     (by rfl)).1⟩





